import Mathlib

/-!
Shallow embedding of the bibliographic reference verifier in `src/main.py`
(class `ReferenceVerifier`).  Network transport is modelled as a function from
requests to HTTP results; randomness (user-agent choice, pacing delays) is
modelled as an explicit stream of naturals threaded through the computation.
Python string operations are modelled by structural recursions over the
character list of a `String` so that every definition evaluates by `decide`.
-/

namespace BibCheck

/-- Models Python slicing `s[:n]` (first `n` characters). -/
def pyTake (s : String) (n : Nat) : String :=
  ⟨s.data.take n⟩

/-- Models Python `str.strip()`: drop leading and trailing whitespace. -/
def pyStrip (s : String) : String :=
  ⟨((s.data.dropWhile Char.isWhitespace).reverse.dropWhile Char.isWhitespace).reverse⟩

/-- Tests whether the second list starts with the first (pattern) list. -/
def patAt : List Char → List Char → Bool
  | [], _ => true
  | _ :: _, [] => false
  | p :: ps, c :: cs => p == c && patAt ps cs

/-- Fuel-indexed worker for `pyReplace`; the fuel makes the recursion structural. -/
def replaceAux (pat rep : List Char) : Nat → List Char → List Char
  | 0, s => s
  | _ + 1, [] => []
  | fuel + 1, c :: cs =>
    if patAt pat (c :: cs) then
      rep ++ replaceAux pat rep fuel ((c :: cs).drop pat.length)
    else
      c :: replaceAux pat rep fuel cs

/-- Models Python `str.replace(pat, rep)`: leftmost, non-overlapping, all
occurrences.  The program only ever calls it with a non-empty pattern. -/
def pyReplace (s pat rep : String) : String :=
  if pat.data.isEmpty then s else ⟨replaceAux pat.data rep.data s.data.length s.data⟩

/-- Models Python `str.lower()` on the ASCII identifiers the program handles. -/
def pyLower (s : String) : String :=
  ⟨s.data.map Char.toLower⟩

/-- Worker for `pyWords`: accumulates the current word (reversed). -/
def wordsAux : List Char → List Char → List (List Char)
  | [], cur => if cur.isEmpty then [] else [cur.reverse]
  | c :: cs, cur =>
    if c.isWhitespace then
      if cur.isEmpty then wordsAux cs [] else cur.reverse :: wordsAux cs []
    else
      wordsAux cs (c :: cur)

/-- Models Python `str.split()` with no argument: split on whitespace runs,
discarding empty pieces. -/
def pyWords (s : String) : List String :=
  (wordsAux s.data []).map fun l => ⟨l⟩

/-- Models Python `sep.join(xs)`. -/
def joinSep (sep : String) : List String → String
  | [] => ""
  | [x] => x
  | x :: y :: xs => x ++ sep ++ joinSep sep (y :: xs)

/-- Models `re.sub(r"\s+", " ", t).strip()`: collapse whitespace runs to a
single space and trim the ends. -/
def collapseWs (s : String) : String :=
  joinSep " " (pyWords s)

/-- Fuel-indexed worker for `removeTags` (the regex `<[^>]+>` replaced by a
space, scanning left to right). -/
def removeTagsAux : Nat → List Char → List Char
  | 0, cs => cs
  | _ + 1, [] => []
  | fuel + 1, c :: cs =>
    if c == '<' then
      match cs with
      | [] => ['<']
      | c2 :: _ =>
        if c2 == '>' then '<' :: removeTagsAux fuel cs
        else
          match cs.dropWhile (fun x => !(x == '>')) with
          | '>' :: rest => ' ' :: removeTagsAux fuel rest
          | _ => '<' :: cs
    else
      c :: removeTagsAux fuel cs

/-- Models `re.sub(r"<[^>]+>", " ", t)`. -/
def removeTags (s : String) : String :=
  ⟨removeTagsAux s.data.length s.data⟩

/-- Fuel-indexed worker for `htmlUnescape`. -/
def htmlUnescapeAux : Nat → List Char → List Char
  | 0, cs => cs
  | _ + 1, [] => []
  | fuel + 1, c :: cs =>
    if c == '&' then
      if patAt "amp;".data cs then '&' :: htmlUnescapeAux fuel (cs.drop 4)
      else if patAt "lt;".data cs then '<' :: htmlUnescapeAux fuel (cs.drop 3)
      else if patAt "gt;".data cs then '>' :: htmlUnescapeAux fuel (cs.drop 3)
      else if patAt "quot;".data cs then '"' :: htmlUnescapeAux fuel (cs.drop 5)
      else if patAt "#39;".data cs then Char.ofNat 39 :: htmlUnescapeAux fuel (cs.drop 4)
      else c :: htmlUnescapeAux fuel cs
    else
      c :: htmlUnescapeAux fuel cs

/-- Models Python `html.unescape` restricted to the five basic character
entities; the full named-entity table of the standard library is outside the
scope of the claims. -/
def htmlUnescape (s : String) : String :=
  ⟨htmlUnescapeAux s.data.length s.data⟩

/-- Embedding of `ReferenceVerifier._strip_html`: remove tags, unescape
entities, collapse whitespace; empty input maps to the empty string. -/
def strip_html (s : String) : String :=
  if s == "" then "" else collapseWs (htmlUnescape (removeTags s))

/-- Python truthiness of an optional string field: present and non-empty. -/
def truthy : Option String → Bool
  | some s => !(s == "")
  | none => false

/-- One `{given, family}` author object of a Crossref `message.author` array. -/
structure Author where
  given : Option String
  family : Option String
deriving DecidableEq, Repr

/-- Crossref JSON fields that are "array-or-string" (`title`,
`container-title`): absent, a plain string, or an array of strings. -/
inductive JStr where
  | missing
  | str (s : String)
  | arr (xs : List String)
deriving DecidableEq, Repr

/-- The parsed Crossref `message` envelope, restricted to the keys the program
reads.  Date fields hold the `date-parts` array when present. -/
structure CrossrefMsg where
  doi : Option String
  title : JStr
  containerTitle : JStr
  author : List Author
  volume : Option String
  issue : Option String
  page : Option String
  url : Option String
  typ : Option String
  abstract : Option String
  publishedPrint : Option (List (List Int))
  publishedOnline : Option (List (List Int))
  issued : Option (List (List Int))
deriving DecidableEq, Repr

/-- The empty Crossref message dict `{}`. -/
def CrossrefMsg.empty : CrossrefMsg :=
  ⟨none, .missing, .missing, [], none, none, none, none, none, none, none, none, none⟩

/-- Python truthiness of the message dict: `if crossref_message:` is false
exactly on the empty dict. -/
def CrossrefMsg.isEmpty (m : CrossrefMsg) : Bool :=
  m == CrossrefMsg.empty

/-- One parsed bibliography entry, as produced by `parse_bib_file`: an optional
field models presence of the corresponding dictionary key. -/
structure Reference where
  typ : Option String
  key : Option String
  doi : Option String
  url : Option String
  arxiv : Option String
  title : Option String
  year : Option String
  journal : Option String
deriving DecidableEq, Repr

/-- The `doi_resolve` outcome: `{valid, message, status_code}`. -/
structure OutcomeR where
  valid : Bool
  message : String
  status_code : Nat
deriving DecidableEq, Repr

/-- The `doi_crossref` and `arxiv` outcomes: `{valid, message}`. -/
structure OutcomeC where
  valid : Bool
  message : String
deriving DecidableEq, Repr

/-- The `verification.crossref` metadata snapshot. -/
structure Snapshot where
  doi : String
  title : String
  journal : String
  year : String
deriving DecidableEq, Repr

/-- The `result.verification` sub-dictionary: a key is present iff the option
is `some`. -/
structure Verification where
  doi_resolve : Option OutcomeR
  doi_crossref : Option OutcomeC
  crossref : Option Snapshot
  arxiv : Option OutcomeC
deriving DecidableEq, Repr

/-- One element of the list `verify_references` returns: the copied input
record plus the added `verification`, `status` and (possibly) `abstract` keys. -/
structure VerResult where
  ref : Reference
  verification : Verification
  status : String
  abstract : Option String
deriving DecidableEq, Repr

/-- HTTP method of a request the program issues. -/
inductive Method where
  | head
  | get
deriving DecidableEq, Repr

/-- One network request: method, URL, and the User-Agent header chosen for it. -/
structure Request where
  method : Method
  url : String
  userAgent : String
deriving DecidableEq, Repr

/-- What the transport produces for one request: a response (status, final URL
after redirects, parsed Crossref message body), or one of the
`requests` exception classes the program catches. -/
inductive HttpResult where
  | resp (status : Nat) (finalUrl : String) (msg : CrossrefMsg)
  | timeout
  | connError
  | exc (m : String)
deriving DecidableEq, Repr

/-- A deterministic model of the HTTP session: responses as a function of the
request. -/
def Transport : Type :=
  Request → HttpResult

/-- Stream of random draws (`random.choice` indices, `random.uniform` draws)
consumed left to right. -/
def Rng : Type :=
  List Nat

/-- The fixed `self.user_agents` pool. -/
def userAgents : List String :=
  ["Mozilla/5.0 (Windows NT 10.0; Win64; x64) AppleWebKit/537.36 (KHTML, like Gecko) Chrome/120.0.0.0 Safari/537.36",
   "Mozilla/5.0 (Windows NT 10.0; Win64; x64; rv:121.0) Gecko/20100101 Firefox/121.0",
   "Mozilla/5.0 (Macintosh; Intel Mac OS X 10_15_7) AppleWebKit/537.36 (KHTML, like Gecko) Chrome/120.0.0.0 Safari/537.36",
   "Mozilla/5.0 (X11; Linux x86_64) AppleWebKit/537.36 (KHTML, like Gecko) Chrome/120.0.0.0 Safari/537.36"]

/-- Embedding of `_get_random_user_agent`: `random.choice(self.user_agents)`,
driven by one draw from the stream. -/
def get_random_user_agent (rng : Rng) : String × Rng :=
  (userAgents.getD (rng.headD 0 % userAgents.length) "", rng.tail)

/-- Embedding of `_delay`: `time.sleep(random.uniform(*delay_range))` consumes
one draw and has no other observable effect. -/
def delay (rng : Rng) : Rng :=
  rng.tail

/-- Embedding of `_extract_crossref_year`'s per-key step: the first year of a
`date-parts` value when it is a non-empty list of non-empty lists. -/
def firstDatePart : Option (List (List Int)) → Option Int
  | some ((y :: _) :: _) => some y
  | _ => none

/-- Embedding of `ReferenceVerifier._extract_crossref_year`: first available
year across `published-print`, `published-online`, `issued`. -/
def extract_crossref_year (m : CrossrefMsg) : String :=
  match firstDatePart m.publishedPrint with
  | some y => toString y
  | none =>
    match firstDatePart m.publishedOnline with
    | some y => toString y
    | none =>
      match firstDatePart m.issued with
      | some y => toString y
      | none => ""

/-- Shared extraction rule for the "array-or-string" fields. -/
def JStr.extract : JStr → String
  | .arr (x :: _) => x
  | .arr [] => ""
  | .str s => s
  | .missing => ""

/-- Embedding of `ReferenceVerifier._extract_crossref_title`. -/
def extract_crossref_title (m : CrossrefMsg) : String :=
  m.title.extract

/-- Embedding of `ReferenceVerifier._extract_crossref_journal`
(`container-title`). -/
def extract_crossref_journal (m : CrossrefMsg) : String :=
  m.containerTitle.extract

/-- Display form of one author in `crossref_to_bibtex`:
`f"{a.get('given','')} {a.get('family','')}".strip()`. -/
def author_display (a : Author) : String :=
  pyStrip ((a.given.getD "") ++ " " ++ (a.family.getD ""))

/-- The joined author list of `crossref_to_bibtex`: authors with a truthy
`family`, display names joined with `" and "`. -/
def author_str (m : CrossrefMsg) : String :=
  joinSep " and " ((m.author.filter fun a => truthy a.family).map author_display)

/-- The `year` value used by `crossref_to_bibtex`:
`self._extract_crossref_year(message) or 'YEAR'`. -/
def bibtexYear (m : CrossrefMsg) : String :=
  if extract_crossref_year m == "" then "YEAR" else extract_crossref_year m

/-- The conditionally emitted field lines of `crossref_to_bibtex`, in source
order, as (field name, value) pairs; each `if` mirrors one `lines.append`
guard of the Python code. -/
def bibtexFields (m : CrossrefMsg) : List (String × String) :=
  (if !(extract_crossref_title m == "") then [("title", extract_crossref_title m)] else []) ++
  (if !m.author.isEmpty && !(author_str m == "") then [("author", author_str m)] else []) ++
  (if !(extract_crossref_journal m == "") then [("journal", extract_crossref_journal m)] else []) ++
  (if !(bibtexYear m == "") then [("year", bibtexYear m)] else []) ++
  (if truthy m.volume then [("volume", m.volume.getD "")] else []) ++
  (if truthy m.issue then [("number", m.issue.getD "")] else []) ++
  (if truthy m.page then [("pages", m.page.getD "")] else []) ++
  (if truthy m.doi then [("doi", m.doi.getD "")] else []) ++
  (if truthy m.url then [("url", m.url.getD "")] else [])

/-- Renders one `"  name = {value},"` line of a BibTeX entry. -/
def fieldLine (name value : String) : String :=
  "  " ++ name ++ " = \x7b" ++ value ++ "\x7d,"

/-- Embedding of `ReferenceVerifier.crossref_to_bibtex`. -/
def crossref_to_bibtex (m : CrossrefMsg) (original_key : Option String) : String :=
  let entry_type0 := m.typ.getD "article"
  let entry_type :=
    if entry_type0 == "journal-article" then "article"
    else if entry_type0 == "proceedings-article" || entry_type0 == "conference-paper" then "inproceedings"
    else entry_type0
  let first_author :=
    match m.author with
    | a :: _ => a.family.getD "Unknown"
    | [] => ""
  let first_word := (pyWords (extract_crossref_title m)).headD "Title"
  let gen_key := first_author ++ bibtexYear m ++ first_word
  let cite_key :=
    match original_key with
    | some k => if k == "" then gen_key else k
    | none => gen_key
  joinSep "\n"
    (("@" ++ entry_type ++ "\x7b" ++ cite_key ++ ",") ::
      ((bibtexFields m).map fun p => fieldLine p.1 p.2) ++ ["\x7d"])

/-- The Crossref works endpoint `self.crossref_base_url`. -/
def crossrefBaseUrl : String :=
  "https://api.crossref.org/works"

/-- The DOI normalization performed by `verify_doi_crossref`: strip
whitespace, remove the two resolver URL prefixes, strip again. -/
def crossrefNormalize (doi : String) : String :=
  pyStrip (pyReplace (pyReplace (pyStrip doi) "https://doi.org/" "") "http://dx.doi.org/" "")

/-- The lookup URL `verify_doi_crossref` requests:
`f"{self.crossref_base_url}/{normalized.lower()}"`. -/
def crossrefLookupUrl (doi : String) : String :=
  crossrefBaseUrl ++ "/" ++ pyLower (crossrefNormalize doi)

/-- Embedding of `ReferenceVerifier.verify_doi_crossref`: value is
`(valid, message, crossref message dict)`; also returns the requests issued
and the advanced random stream. -/
def verify_doi_crossref (t : Transport) (doi : String) (rng : Rng) :
    (Bool × String × CrossrefMsg) × List Request × Rng :=
  if doi == "" then ((false, "No DOI provided", CrossrefMsg.empty), [], rng)
  else if crossrefNormalize doi == "" then ((false, "No DOI provided", CrossrefMsg.empty), [], rng)
  else
    let ur := get_random_user_agent rng
    let req : Request := ⟨Method.get, crossrefLookupUrl doi, ur.1⟩
    match t req with
    | .resp status _ msg =>
      if status == 200 then ((true, "Valid (Crossref)", msg), [req], ur.2)
      else if status == 404 then
        ((false, "DOI not found in Crossref (404)", CrossrefMsg.empty), [req], ur.2)
      else
        ((false, "Crossref error (HTTP " ++ toString status ++ ")", CrossrefMsg.empty), [req], ur.2)
    | .timeout => ((false, "Crossref timeout", CrossrefMsg.empty), [req], ur.2)
    | .connError => ((false, "Crossref connection error", CrossrefMsg.empty), [req], ur.2)
    | .exc m => ((false, "Crossref error: " ++ pyTake m 50, CrossrefMsg.empty), [req], ur.2)

/-- First DOI resolver URL of `verify_doi`: `f"https://doi.org/{doi}"`. -/
def doiUrl1 (doi : String) : String :=
  "https://doi.org/" ++ doi

/-- Second DOI resolver URL of `verify_doi`: `f"https://dx.doi.org/{doi}"`. -/
def doiUrl2 (doi : String) : String :=
  "https://dx.doi.org/" ++ doi

/-- One iteration of the `for url in doi_urls` loop of `verify_doi`: `some`
result means the loop `return`s, `none` means it falls through to the next
URL (`continue`); the second component lists the requests issued. -/
def tryResolveUrl (t : Transport) (ua url : String) :
    Option (Bool × String × Nat) × List Request :=
  let req : Request := ⟨Method.head, url, ua⟩
  match t req with
  | .resp status finalUrl _ =>
    if status == 200 then
      (some (true, "Valid (resolved to " ++ pyTake finalUrl 80 ++ ")", status), [req])
    else if status == 404 then
      (some (false, "DOI not found (404)", status), [req])
    else if status == 403 then
      let req2 : Request := ⟨Method.get, url, ua⟩
      match t req2 with
      | .resp s2 _ _ =>
        if s2 == 200 then (some (true, "Valid (resolved with GET)", s2), [req, req2])
        else (some (false, "Access forbidden (403)", s2), [req, req2])
      | .timeout => (some (false, "Timeout", 0), [req, req2])
      | .connError => (some (false, "Connection error", 0), [req, req2])
      | .exc m => (some (false, "Error: " ++ pyTake m 50, 0), [req, req2])
    else
      (none, [req])
  | .timeout => (some (false, "Timeout", 0), [req])
  | .connError => (some (false, "Connection error", 0), [req])
  | .exc m => (some (false, "Error: " ++ pyTake m 50, 0), [req])

/-- Embedding of `ReferenceVerifier.verify_doi`: value is
`(is_valid, message, status_code)`; one User-Agent is drawn for both hosts. -/
def verify_doi (t : Transport) (doi : String) (rng : Rng) :
    (Bool × String × Nat) × List Request × Rng :=
  if doi == "" then ((false, "No DOI provided", 0), [], rng)
  else
    let ur := get_random_user_agent rng
    match tryResolveUrl t ur.1 (doiUrl1 doi) with
    | (some r, reqs) => (r, reqs, ur.2)
    | (none, reqs1) =>
      match tryResolveUrl t ur.1 (doiUrl2 doi) with
      | (some r, reqs2) => (r, reqs1 ++ reqs2, ur.2)
      | (none, reqs2) => ((false, "Could not verify", 0), reqs1 ++ reqs2, ur.2)

/-- The arXiv abstract-page URL of `verify_arxiv`. -/
def arxivUrl (arxiv_id : String) : String :=
  "https://arxiv.org/abs/" ++ arxiv_id

/-- Diagnostic text `str(e)` of a transport fault, used where the program
catches a bare `Exception`. -/
def HttpResult.faultText : HttpResult → String
  | .timeout => "timeout"
  | .connError => "connection error"
  | .exc m => m
  | .resp _ _ _ => ""

/-- Embedding of `ReferenceVerifier.verify_arxiv`: value is
`(is_valid, message)`; every fault is caught by the single generic handler. -/
def verify_arxiv (t : Transport) (arxiv_id : String) (rng : Rng) :
    (Bool × String) × List Request × Rng :=
  if arxiv_id == "" then ((false, "No arXiv ID provided"), [], rng)
  else
    let ur := get_random_user_agent rng
    let req : Request := ⟨Method.head, arxivUrl arxiv_id, ur.1⟩
    match t req with
    | .resp status _ _ =>
      if status == 200 then ((true, "Valid arXiv ID"), [req], ur.2)
      else ((false, "arXiv ID not found (" ++ toString status ++ ")"), [req], ur.2)
    | f => ((false, "Error: " ++ pyTake f.faultText 50), [req], ur.2)

/-- Embedding of the status derivation at the end of the per-record loop of
`verify_references` (lines 581-586). -/
def derive_status (v : Verification) : String :=
  match v.doi_crossref with
  | some o => if o.valid then "VALID" else "INVALID"
  | none =>
    match v.arxiv with
    | some o => if o.valid then "VALID" else "INVALID"
    | none => "NO_IDENTIFIER"

/-- The `if 'arxiv' in ref` step plus status derivation and result assembly,
shared by both branches of the per-record loop. -/
def arxivStep (t : Transport) (ref : Reference) (v : Verification)
    (abs : Option String) (reqs : List Request) (rng : Rng) :
    VerResult × List Request × Rng :=
  match ref.arxiv with
  | some a =>
    let r := verify_arxiv t a rng
    let v' : Verification := { v with arxiv := some ⟨r.1.1, r.1.2⟩ }
    (⟨ref, v', derive_status v', abs⟩, reqs ++ r.2.1, delay r.2.2)
  | none => (⟨ref, v, derive_status v, abs⟩, reqs, rng)

/-- The body of the per-record loop of `verify_references`: DOI-resolve and
Crossref checks when `'doi' in ref`, then the arXiv check, then status. -/
def verify_one (t : Transport) (ref : Reference) (rng : Rng) :
    VerResult × List Request × Rng :=
  match ref.doi with
  | some d =>
    let r1 := verify_doi t d rng
    let rng1 := delay r1.2.2
    let r2 := verify_doi_crossref t d rng1
    let cmsg := r2.1.2.2
    let v : Verification :=
      ⟨some ⟨r1.1.1, r1.1.2.1, r1.1.2.2⟩, some ⟨r2.1.1, r2.1.2.1⟩,
        if cmsg.isEmpty then none
        else some ⟨cmsg.doi.getD "", pyTake (extract_crossref_title cmsg) 200,
          pyTake (extract_crossref_journal cmsg) 120, extract_crossref_year cmsg⟩,
        none⟩
    let abs : Option String :=
      if cmsg.isEmpty then none
      else if truthy cmsg.abstract then some (strip_html (cmsg.abstract.getD "")) else none
    arxivStep t ref v abs (r1.2.1 ++ r2.2.1) (delay r2.2.2)
  | none => arxivStep t ref ⟨none, none, none, none⟩ none [] rng

/-- Embedding of `ReferenceVerifier.verify_references`: the per-record results
in input order, all requests issued, and the advanced random stream.  The
progress and log callbacks have no effect on the returned data and are not
modelled. -/
def verify_references (t : Transport) : List Reference → Rng →
    List VerResult × List Request × Rng
  | [], rng => ([], [], rng)
  | ref :: rest, rng =>
    let r := verify_one t ref rng
    let rs := verify_references t rest r.2.2
    (r.1 :: rs.1, r.2.1 ++ rs.2.1, rs.2.2)

/-- The summary block of `generate_report`: total and per-status counts plus
the three percentages (Python floats modelled as exact rationals). -/
structure ReportSummary where
  total : Nat
  valid : Nat
  invalid : Nat
  no_id : Nat
  validPct : ℚ
  invalidPct : ℚ
  noIdPct : ℚ
deriving DecidableEq, Repr

/-- Embedding of the summary computation of `ReferenceVerifier.generate_report`:
the per-status counts are divided by the total, so an empty results list makes
`valid/total*100` raise `ZeroDivisionError`, modelled as `Except.error`. -/
def generate_report (results : List VerResult) : Except String ReportSummary :=
  let total := results.length
  let valid := (results.filter fun r => r.status == "VALID").length
  let invalid := (results.filter fun r => r.status == "INVALID").length
  let no_id := (results.filter fun r => r.status == "NO_IDENTIFIER").length
  if total == 0 then Except.error "ZeroDivisionError"
  else Except.ok ⟨total, valid, invalid, no_id,
    (valid : ℚ) / (total : ℚ) * 100, (invalid : ℚ) / (total : ℚ) * 100,
    (no_id : ℚ) / (total : ℚ) * 100⟩

/-- Concrete Crossref message used by concrete-input theorems. -/
def msgX : CrossrefMsg :=
  ⟨some "10.1/x", .arr ["Foo"], .missing, [⟨some "A", some "Bee"⟩],
    none, none, none, none, none, none, none, none, some [[2020]]⟩

/-- Concrete record with a DOI. -/
def refD : Reference :=
  ⟨some "article", some "k1", some "10.1/x", none, none, some "T", none, none⟩

/-- Concrete record with neither `doi` nor `arxiv`. -/
def refN : Reference :=
  ⟨some "article", some "k2", none, none, none, some "T", some "2020", some "J"⟩

/-- Concrete record whose `doi` is a whitespace-only string. -/
def refWs : Reference :=
  ⟨some "article", some "k3", some " ", none, none, none, none, none⟩

/-- Concrete record whose `doi` is the empty string. -/
def refE : Reference :=
  ⟨some "article", some "k4", some "", none, none, none, none, none⟩

/-- Transport that answers every request with HTTP 200 and the metadata of
`msgX`. -/
def tOk : Transport :=
  fun _ => .resp 200 "https://pub.example/x" msgX

/-- Transport that answers every request with HTTP 404. -/
def t404 : Transport :=
  fun _ => .resp 404 "" CrossrefMsg.empty

/-- Transport where the first resolver host answers 403 to HEAD and 500 to the
GET fallback while every other URL (in particular the second host) answers
200. -/
def tForb : Transport :=
  fun r =>
    if r.url == doiUrl1 "10.1/x" then
      if r.method == Method.head then .resp 403 "" CrossrefMsg.empty
      else .resp 500 "" CrossrefMsg.empty
    else .resp 200 "ok" CrossrefMsg.empty

/-- Transport that raises an unexpected exception on every request. -/
def tExc : Transport :=
  fun _ => .exc "boom"

/-- Default result value used with `List.headD` in closed statements. -/
def dfltR : VerResult :=
  ⟨refN, ⟨none, none, none, none⟩, "", none⟩

theorem mem_if_single {α : Type} (x y : α) (p : Prop) [Decidable p] :
    (x ∈ (if p then [y] else ([] : List α))) ↔ (p ∧ x = y) := by
  by_cases h : p <;> simp [h]

theorem bibtexYear_ne (m : CrossrefMsg) : ¬ bibtexYear m = "" := by
  unfold bibtexYear
  by_cases h : extract_crossref_year m = "" <;> simp [h]

theorem arxivStep_ref (t : Transport) (ref : Reference) (v : Verification)
    (abs : Option String) (reqs : List Request) (rng : Rng) :
    (arxivStep t ref v abs reqs rng).1.ref = ref := by
  unfold arxivStep
  cases ref.arxiv <;> simp

theorem arxivStep_status (t : Transport) (ref : Reference) (v : Verification)
    (abs : Option String) (reqs : List Request) (rng : Rng) :
    (arxivStep t ref v abs reqs rng).1.status =
      derive_status (arxivStep t ref v abs reqs rng).1.verification := by
  unfold arxivStep
  cases ref.arxiv <;> simp

theorem arxivStep_crossref (t : Transport) (ref : Reference) (v : Verification)
    (abs : Option String) (reqs : List Request) (rng : Rng) :
    (arxivStep t ref v abs reqs rng).1.verification.doi_crossref = v.doi_crossref := by
  unfold arxivStep
  cases ref.arxiv <;> simp

theorem verify_one_ref (t : Transport) (r : Reference) (rng : Rng) :
    (verify_one t r rng).1.ref = r := by
  unfold verify_one
  cases r.doi <;> simp [arxivStep_ref]

theorem verify_one_status (t : Transport) (r : Reference) (rng : Rng) :
    (verify_one t r rng).1.status = derive_status (verify_one t r rng).1.verification := by
  unfold verify_one
  cases r.doi <;> simp [arxivStep_status]

theorem verify_one_noid (t : Transport) (r : Reference) (rng : Rng)
    (hdoi : r.doi = none) (harx : r.arxiv = none) :
    (verify_one t r rng).1.status = "NO_IDENTIFIER" := by
  unfold verify_one arxivStep
  simp [hdoi, harx, derive_status]

theorem verify_references_length (t : Transport) (refs : List Reference) (rng : Rng) :
    (verify_references t refs rng).1.length = refs.length := by
  induction refs generalizing rng with
  | nil => rfl
  | cons r rest ih => simp [verify_references, ih]

theorem verify_references_mem (t : Transport) (refs : List Reference) (rng : Rng)
    (res : VerResult) (h : res ∈ (verify_references t refs rng).1) :
    ∃ r rng', r ∈ refs ∧ res = (verify_one t r rng').1 := by
  induction refs generalizing rng with
  | nil => simp [verify_references] at h
  | cons r rest ih =>
    simp only [verify_references, List.mem_cons] at h
    rcases h with h | h
    · exact ⟨r, rng, List.mem_cons_self r rest, h⟩
    · obtain ⟨r', rng', hr', he⟩ := ih _ h
      exact ⟨r', rng', List.mem_cons_of_mem _ hr', he⟩

theorem verify_references_get (t : Transport) (refs : List Reference) (rng : Rng)
    (i : Nat) (h1 : i < (verify_references t refs rng).1.length) (h2 : i < refs.length) :
    ∃ rng', (verify_references t refs rng).1.get ⟨i, h1⟩ =
      (verify_one t (refs.get ⟨i, h2⟩) rng').1 := by
  induction refs generalizing rng i with
  | nil => simp at h2
  | cons r rest ih =>
    cases i with
    | zero => exact ⟨rng, rfl⟩
    | succ j =>
      have h1' : j < (verify_references t rest (verify_one t r rng).2.2).1.length := by
        simpa [verify_references] using h1
      obtain ⟨rng', he⟩ := ih (verify_one t r rng).2.2 j h1' (Nat.lt_of_succ_lt_succ h2)
      exact ⟨rng', he⟩

/-- A mocked deterministic transport in the sense of the idempotence property:
its responses do not depend on the randomly rotated User-Agent header. -/
def UAblind (t : Transport) : Prop :=
  ∀ m u ua₁ ua₂, t ⟨m, u, ua₁⟩ = t ⟨m, u, ua₂⟩

theorem tryResolveUrl_val (t : Transport) (h : UAblind t) (ua₁ ua₂ url : String) :
    (tryResolveUrl t ua₁ url).1 = (tryResolveUrl t ua₂ url).1 := by
  unfold tryResolveUrl
  dsimp only
  simp only [h Method.head url ua₁ ua₂, h Method.get url ua₁ ua₂]
  cases t ⟨Method.head, url, ua₂⟩ <;> dsimp only <;> try rfl
  split_ifs <;> try rfl
  cases t ⟨Method.get, url, ua₂⟩ <;> dsimp only <;> try rfl
  split_ifs <;> rfl

theorem verify_doi_val (t : Transport) (h : UAblind t) (d : String) (rng₁ rng₂ : Rng) :
    (verify_doi t d rng₁).1 = (verify_doi t d rng₂).1 := by
  unfold verify_doi
  by_cases hd : d == ""
  · simp [hd]
  · simp only [hd, Bool.false_eq_true, if_false]
    try dsimp only
    have e1 := tryResolveUrl_val t h (get_random_user_agent rng₁).1
      (get_random_user_agent rng₂).1 (doiUrl1 d)
    have e2 := tryResolveUrl_val t h (get_random_user_agent rng₁).1
      (get_random_user_agent rng₂).1 (doiUrl2 d)
    rcases h1 : tryResolveUrl t (get_random_user_agent rng₁).1 (doiUrl1 d) with ⟨o1, q1⟩
    rcases h1' : tryResolveUrl t (get_random_user_agent rng₂).1 (doiUrl1 d) with ⟨o1', q1'⟩
    have ho1 : o1 = o1' := by rw [h1, h1'] at e1; exact e1
    rcases h2 : tryResolveUrl t (get_random_user_agent rng₁).1 (doiUrl2 d) with ⟨o2, q2⟩
    rcases h2' : tryResolveUrl t (get_random_user_agent rng₂).1 (doiUrl2 d) with ⟨o2', q2'⟩
    have ho2 : o2 = o2' := by rw [h2, h2'] at e2; exact e2
    subst ho1; subst ho2
    cases o1 <;> cases o2 <;> simp

theorem verify_doi_crossref_val (t : Transport) (h : UAblind t) (d : String)
    (rng₁ rng₂ : Rng) :
    (verify_doi_crossref t d rng₁).1 = (verify_doi_crossref t d rng₂).1 := by
  unfold verify_doi_crossref
  by_cases hd : d == ""
  · simp [hd]
  · by_cases hn : crossrefNormalize d == ""
    · simp [hd, hn]
    · simp only [hd, hn, Bool.false_eq_true, if_false]
      try dsimp only
      simp only [h Method.get (crossrefLookupUrl d) (get_random_user_agent rng₁).1
        (get_random_user_agent rng₂).1]
      cases t ⟨Method.get, crossrefLookupUrl d, (get_random_user_agent rng₂).1⟩ <;>
        dsimp only <;> try rfl
      split_ifs <;> rfl

theorem verify_arxiv_val (t : Transport) (h : UAblind t) (a : String) (rng₁ rng₂ : Rng) :
    (verify_arxiv t a rng₁).1 = (verify_arxiv t a rng₂).1 := by
  unfold verify_arxiv
  by_cases ha : a == ""
  · simp [ha]
  · simp only [ha, Bool.false_eq_true, if_false]
    try dsimp only
    simp only [h Method.head (arxivUrl a) (get_random_user_agent rng₁).1
      (get_random_user_agent rng₂).1]
    cases t ⟨Method.head, arxivUrl a, (get_random_user_agent rng₂).1⟩ <;>
      dsimp only <;> try rfl
    split_ifs <;> rfl

theorem arxivStep_val (t : Transport) (h : UAblind t) (ref : Reference)
    (v : Verification) (abs : Option String) (reqs₁ reqs₂ : List Request)
    (rng₁ rng₂ : Rng) :
    (arxivStep t ref v abs reqs₁ rng₁).1 = (arxivStep t ref v abs reqs₂ rng₂).1 := by
  unfold arxivStep
  cases ha : ref.arxiv with
  | none => simp
  | some a =>
    have := verify_arxiv_val t h a rng₁ rng₂
    simp only []
    rw [this]

theorem verify_one_val (t : Transport) (h : UAblind t) (r : Reference) (rng₁ rng₂ : Rng) :
    (verify_one t r rng₁).1 = (verify_one t r rng₂).1 := by
  unfold verify_one
  cases hd : r.doi with
  | none => exact arxivStep_val t h r _ _ _ _ _ _
  | some d =>
    have e1 := verify_doi_val t h d rng₁ rng₂
    have e2 := verify_doi_crossref_val t h d (delay (verify_doi t d rng₁).2.2)
      (delay (verify_doi t d rng₂).2.2)
    simp only [e1, e2]
    exact arxivStep_val t h r _ _ _ _ _ _

theorem verify_references_val (t : Transport) (h : UAblind t) (refs : List Reference)
    (rng₁ rng₂ : Rng) :
    (verify_references t refs rng₁).1 = (verify_references t refs rng₂).1 := by
  induction refs generalizing rng₁ rng₂ with
  | nil => rfl
  | cons r rest ih =>
    simp only [verify_references]
    rw [verify_one_val t h r rng₁ rng₂, ih]

/-- C1: for every record processed by `verify_references`, if a Crossref
outcome was recorded then the derived status is VALID iff that outcome's
`valid` flag is true and INVALID otherwise, whatever the DOI-resolve outcome
holds. -/
theorem crossref_outcome_decides_status (t : Transport) (refs : List Reference)
    (rng : Rng) (res : VerResult) (o : OutcomeC)
    (hmem : res ∈ (verify_references t refs rng).1)
    (hc : res.verification.doi_crossref = some o) :
    res.status = if o.valid then "VALID" else "INVALID" := by
  obtain ⟨r, rng', _, rfl⟩ := verify_references_mem t refs rng res hmem
  rw [verify_one_status]
  simp [derive_status, hc]

/-- C1 witness: a concrete batch whose Crossref outcome is valid gets status
VALID. -/
theorem crossref_outcome_decides_status_witness :
    ((verify_references tOk [refD] []).1.headD dfltR).status = "VALID" := by
  have h := crossref_outcome_decides_status tOk [refD] []
    ((verify_references tOk [refD] []).1.headD dfltR)
    ⟨true, "Valid (Crossref)"⟩ (by decide) (by decide)
  simpa using h

/-- C2: a record with neither a `doi` nor an `arxiv` field is assigned status
NO_IDENTIFIER by `verify_references`, whatever its other fields hold. -/
theorem no_identifier_status (t : Transport) (refs : List Reference) (rng : Rng)
    (i : Nat) (h1 : i < (verify_references t refs rng).1.length) (h2 : i < refs.length)
    (hdoi : (refs.get ⟨i, h2⟩).doi = none) (harx : (refs.get ⟨i, h2⟩).arxiv = none) :
    ((verify_references t refs rng).1.get ⟨i, h1⟩).status = "NO_IDENTIFIER" := by
  obtain ⟨rng', he⟩ := verify_references_get t refs rng i h1 h2
  rw [he]
  exact verify_one_noid t _ rng' hdoi harx

/-- C2 witness: a concrete record carrying only title, year and journal is
classified NO_IDENTIFIER. -/
theorem no_identifier_status_witness :
    ((verify_references tOk [refN] []).1.get ⟨0, by decide⟩).status = "NO_IDENTIFIER" :=
  no_identifier_status tOk [refN] [] 0 (by decide) (by decide) (by decide) (by decide)

/-- C9: `verify_references` returns exactly one result per input record, in
input order, and each result embeds the corresponding original record with all
its fields unchanged (the pure embedding adds only the `verification`,
`status` and optional `abstract` components). -/
theorem results_preserve_records (t : Transport) (refs : List Reference) (rng : Rng) :
    (verify_references t refs rng).1.length = refs.length ∧
    ∀ i (h1 : i < (verify_references t refs rng).1.length) (h2 : i < refs.length),
      ((verify_references t refs rng).1.get ⟨i, h1⟩).ref = refs.get ⟨i, h2⟩ := by
  refine ⟨verify_references_length t refs rng, fun i h1 h2 => ?_⟩
  obtain ⟨rng', he⟩ := verify_references_get t refs rng i h1 h2
  rw [he]
  exact verify_one_ref t _ rng'

/-- C9 witness: a concrete two-record batch yields two results whose first
embedded record is the first input unchanged. -/
theorem results_preserve_records_witness :
    (verify_references tOk [refD, refN] []).1.length = 2 ∧
    ((verify_references tOk [refD, refN] []).1.get ⟨0, by decide⟩).ref = refD := by
  have h := results_preserve_records tOk [refD, refN] []
  exact ⟨h.1, h.2 0 (by decide) (by decide)⟩

/-- C8: the Orchestrator is deterministic with respect to input and transport:
with a transport whose responses do not depend on the rotated User-Agent,
`verify_references` yields identical result lists for any two random streams
(so user-agent selection and pacing delays never influence the results, and
two runs on the same batch agree). -/
theorem orchestrator_deterministic (t : Transport) (refs : List Reference)
    (rng₁ rng₂ : Rng) (h : UAblind t) :
    (verify_references t refs rng₁).1 = (verify_references t refs rng₂).1 :=
  verify_references_val t h refs rng₁ rng₂

/-- C8 witness: a concrete deterministic transport gives the same results for
two different random streams. -/
theorem orchestrator_deterministic_witness :
    (verify_references tOk [refD, refN] [1, 2, 3, 4, 5]).1 =
      (verify_references tOk [refD, refN] [3, 1]).1 :=
  orchestrator_deterministic tOk [refD, refN] [1, 2, 3, 4, 5] [3, 1]
    (fun _ _ _ _ => rfl)

/-- C3 counterexample: a record whose `doi` is the whitespace-only string
`" "` makes the pipeline issue a network request for that identifier (the
DOI-resolve HEAD) and ends with status INVALID, not a status reflecting the
absence of an identifier. -/
theorem blank_identifier_counterexample :
    (verify_references t404 [refWs] []).2.1 ≠ [] ∧
    ((verify_references t404 [refWs] []).1.map fun r => r.status) = ["INVALID"] ∧
    (verify_references t404 [refWs] []).2.1 =
      [⟨Method.head, "https://doi.org/ ", userAgents.getD 0 ""⟩] := by
  exact ⟨by decide, by decide, by decide⟩

theorem arxivStep_status_crossref (t : Transport) (ref : Reference)
    (v : Verification) (abs : Option String) (reqs : List Request) (rng : Rng)
    (o : OutcomeC) (h : v.doi_crossref = some o) :
    (arxivStep t ref v abs reqs rng).1.status = if o.valid then "VALID" else "INVALID" := by
  rw [arxivStep_status]
  have h2 := arxivStep_crossref t ref v abs reqs rng
  rw [h] at h2
  simp [derive_status, h2]

theorem verify_one_empty_doi (t : Transport) (rng : Rng) (r : Reference)
    (hd : r.doi = some "") : (verify_one t r rng).1.status = "INVALID" := by
  simp only [verify_one, hd]
  exact arxivStep_status_crossref _ _ _ _ _ _ ⟨false, "No DOI provided"⟩ rfl

/-- C3 amended: only an identifier that is the empty string is rejected by
`verify_doi` and `verify_arxiv` without any network call; `verify_doi_crossref`
additionally rejects, without a network call, any identifier that is blank
after stripping resolver prefixes and whitespace; and a record whose `doi`
field is the empty string is still given status INVALID (a Crossref outcome
with `valid=false` is recorded), not NO_IDENTIFIER. -/
theorem blank_identifier_amended :
    (∀ (t : Transport) (rng : Rng), verify_doi t "" rng = ((false, "No DOI provided", 0), [], rng)) ∧
    (∀ (t : Transport) (rng : Rng) (d : String), crossrefNormalize d = "" →
      verify_doi_crossref t d rng = ((false, "No DOI provided", CrossrefMsg.empty), [], rng)) ∧
    (∀ (t : Transport) (rng : Rng), verify_arxiv t "" rng = ((false, "No arXiv ID provided"), [], rng)) ∧
    (∀ (t : Transport) (rng : Rng) (r : Reference), r.doi = some "" →
      (verify_one t r rng).1.status = "INVALID") := by
  refine ⟨fun t rng => by simp [verify_doi], fun t rng d hn => ?_,
    fun t rng => by simp [verify_arxiv], fun t rng r hd => verify_one_empty_doi t rng r hd⟩
  unfold verify_doi_crossref
  by_cases h0 : d == "" <;> simp [h0, hn]

/-- C3 amended witness: the blank-identifier behavior at concrete inputs. -/
theorem blank_identifier_amended_witness :
    verify_doi tOk "" [] = ((false, "No DOI provided", 0), [], []) ∧
    verify_doi_crossref tOk " https://doi.org/ " [] =
      ((false, "No DOI provided", CrossrefMsg.empty), [], []) ∧
    verify_arxiv tOk "" [] = ((false, "No arXiv ID provided"), [], []) ∧
    (verify_one t404 refE []).1.status = "INVALID" :=
  ⟨blank_identifier_amended.1 tOk [],
   blank_identifier_amended.2.1 tOk [] " https://doi.org/ " (by decide),
   blank_identifier_amended.2.2.1 tOk [],
   blank_identifier_amended.2.2.2 t404 [] refE (by decide)⟩

/-- C4 counterexample: with the first host answering 403 to HEAD and 500 to
the GET fallback, `verify_doi` returns a forbidden failure immediately — no
request ever reaches the second host even though the second host would have
answered 200. -/
theorem doi_resolve_403_counterexample :
    (verify_doi tForb "10.1/x" []).1 = (false, "Access forbidden (403)", 500) ∧
    (∀ r ∈ (verify_doi tForb "10.1/x" []).2.1, ¬ r.url = doiUrl2 "10.1/x") ∧
    tForb ⟨Method.head, doiUrl2 "10.1/x", userAgents.getD 0 ""⟩ =
      .resp 200 "ok" CrossrefMsg.empty := by
  exact ⟨by decide, by decide, by decide⟩

theorem tryResolveUrl_head_mem (t : Transport) (ua url : String) :
    (⟨Method.head, url, ua⟩ : Request) ∈ (tryResolveUrl t ua url).2 := by
  unfold tryResolveUrl
  dsimp only
  cases t ⟨Method.head, url, ua⟩ <;> dsimp only <;> try simp
  split_ifs <;> try simp
  cases t ⟨Method.get, url, ua⟩ <;> dsimp only <;> try simp
  split_ifs <;> simp

/-- C4 amended: `verify_doi` tries the two resolver hosts in sequence and
returns on the first conclusive (200/404) result; a 403 triggers one GET
retrieval retry of the same host, and if that retry is not 200 the function
returns the forbidden failure at once — it does not move on to the second
host; only a status other than 200, 404 and 403 makes it try the next host. -/
theorem doi_resolve_sequence_amended (t : Transport) (d : String) (rng : Rng)
    (hd : ¬ d = "") :
    (∀ u m, t ⟨Method.head, doiUrl1 d, (get_random_user_agent rng).1⟩ = .resp 200 u m →
      (verify_doi t d rng).1 = (true, "Valid (resolved to " ++ pyTake u 80 ++ ")", 200)) ∧
    (∀ u m, t ⟨Method.head, doiUrl1 d, (get_random_user_agent rng).1⟩ = .resp 404 u m →
      (verify_doi t d rng).1 = (false, "DOI not found (404)", 404)) ∧
    (∀ u m u2 m2, t ⟨Method.head, doiUrl1 d, (get_random_user_agent rng).1⟩ = .resp 403 u m →
      t ⟨Method.get, doiUrl1 d, (get_random_user_agent rng).1⟩ = .resp 200 u2 m2 →
      (verify_doi t d rng).1 = (true, "Valid (resolved with GET)", 200)) ∧
    (∀ u m s2 u2 m2, t ⟨Method.head, doiUrl1 d, (get_random_user_agent rng).1⟩ = .resp 403 u m →
      t ⟨Method.get, doiUrl1 d, (get_random_user_agent rng).1⟩ = .resp s2 u2 m2 → ¬ s2 = 200 →
      verify_doi t d rng = ((false, "Access forbidden (403)", s2),
        [⟨Method.head, doiUrl1 d, (get_random_user_agent rng).1⟩,
         ⟨Method.get, doiUrl1 d, (get_random_user_agent rng).1⟩],
        (get_random_user_agent rng).2)) ∧
    (∀ s u m, t ⟨Method.head, doiUrl1 d, (get_random_user_agent rng).1⟩ = .resp s u m →
      ¬ s = 200 → ¬ s = 404 → ¬ s = 403 →
      (⟨Method.head, doiUrl2 d, (get_random_user_agent rng).1⟩ : Request) ∈
        (verify_doi t d rng).2.1) := by
  have hd' : ¬ (d == "") = true := by simpa using hd
  refine ⟨fun u m h1 => ?_, fun u m h1 => ?_, fun u m u2 m2 h1 h2 => ?_,
    fun u m s2 u2 m2 h1 h2 hs2 => ?_, fun s u m h1 hs200 hs404 hs403 => ?_⟩
  · simp [verify_doi, hd', tryResolveUrl, h1]
  · simp [verify_doi, hd', tryResolveUrl, h1]
  · simp [verify_doi, hd', tryResolveUrl, h1, h2]
  · simp [verify_doi, hd', tryResolveUrl, h1, h2, hs2]
  · simp only [verify_doi, hd', Bool.false_eq_true, if_false]
    have htry : (tryResolveUrl t (get_random_user_agent rng).1 (doiUrl1 d)) =
        (none, [⟨Method.head, doiUrl1 d, (get_random_user_agent rng).1⟩]) := by
      simp [tryResolveUrl, h1, hs200, hs404, hs403]
    rw [htry]
    rcases h2 : tryResolveUrl t (get_random_user_agent rng).1 (doiUrl2 d) with ⟨o2, q2⟩
    have hq2 : (⟨Method.head, doiUrl2 d, (get_random_user_agent rng).1⟩ : Request) ∈ q2 := by
      have hh := tryResolveUrl_head_mem t (get_random_user_agent rng).1 (doiUrl2 d)
      rw [h2] at hh
      exact hh
    cases o2 <;> simp [hq2]

/-- C4 amended witness: the concrete 403-then-500 transport exercises the
give-up branch. -/
theorem doi_resolve_sequence_amended_witness :
    verify_doi tForb "10.1/x" [] = ((false, "Access forbidden (403)", 500),
      [⟨Method.head, doiUrl1 "10.1/x", userAgents.getD 0 ""⟩,
       ⟨Method.get, doiUrl1 "10.1/x", userAgents.getD 0 ""⟩], []) :=
  (doi_resolve_sequence_amended tForb "10.1/x" [] (by decide)).2.2.2.1
    "" CrossrefMsg.empty 500 "" CrossrefMsg.empty (by decide) (by decide) (by decide)

/-- C5 counterexample: a Crossref candidate with no date information at all
still yields an entry with a year field, holding the placeholder `YEAR`. -/
theorem bibtex_year_counterexample :
    extract_crossref_year CrossrefMsg.empty = "" ∧
    ("year", "YEAR") ∈ bibtexFields CrossrefMsg.empty ∧
    crossref_to_bibtex CrossrefMsg.empty none =
      "@article\x7bYEARTitle,\n  year = \x7bYEAR\x7d,\n\x7d" := by
  exact ⟨by decide, by decide, by decide⟩

/-- C5 amended: in `crossref_to_bibtex` each of the fields title, author,
journal, volume, number, pages, doi and url is emitted iff the corresponding
datum is present and non-empty on the candidate, but the year field is always
emitted — with the placeholder value `YEAR` when no date is available. -/
theorem bibtex_fields_amended (m : CrossrefMsg) :
    ((∃ v, ("title", v) ∈ bibtexFields m) ↔ ¬ extract_crossref_title m = "") ∧
    ((∃ v, ("author", v) ∈ bibtexFields m) ↔ (¬ m.author = [] ∧ ¬ author_str m = "")) ∧
    ((∃ v, ("journal", v) ∈ bibtexFields m) ↔ ¬ extract_crossref_journal m = "") ∧
    ((∃ v, ("volume", v) ∈ bibtexFields m) ↔ truthy m.volume = true) ∧
    ((∃ v, ("number", v) ∈ bibtexFields m) ↔ truthy m.issue = true) ∧
    ((∃ v, ("pages", v) ∈ bibtexFields m) ↔ truthy m.page = true) ∧
    ((∃ v, ("doi", v) ∈ bibtexFields m) ↔ truthy m.doi = true) ∧
    ((∃ v, ("url", v) ∈ bibtexFields m) ↔ truthy m.url = true) ∧
    ("year", bibtexYear m) ∈ bibtexFields m := by
  have hy := bibtexYear_ne m
  refine ⟨?_, ?_, ?_, ?_, ?_, ?_, ?_, ?_, ?_⟩ <;>
    simp [bibtexFields, List.mem_append, mem_if_single, Prod.mk.injEq, hy,
      List.isEmpty_iff, and_assoc]

/-- C5 amended witness: the fields emitted for a concrete candidate. -/
theorem bibtex_fields_amended_witness :
    (∃ v, ("title", v) ∈ bibtexFields msgX) ∧ ¬ (∃ v, ("journal", v) ∈ bibtexFields msgX) :=
  ⟨(bibtex_fields_amended msgX).1.mpr (by decide),
   fun hc => (by decide : ¬ extract_crossref_journal msgX ≠ "")
     ((bibtex_fields_amended msgX).2.2.1.mp hc)⟩

/-- C6: normalizing each of the three raw DOI spellings (with the `doi.org`
resolver prefix, with the `dx.doi.org` resolver prefix, and bare) yields the
same canonical DOI `10.1000/xyz123`, and all three produce the identical
Crossref lookup URL. -/
theorem doi_normalization_canonical :
    crossrefNormalize "https://doi.org/10.1000/xyz123" = "10.1000/xyz123" ∧
    crossrefNormalize "http://dx.doi.org/10.1000/xyz123" = "10.1000/xyz123" ∧
    crossrefNormalize "10.1000/xyz123" = "10.1000/xyz123" ∧
    crossrefLookupUrl "https://doi.org/10.1000/xyz123" =
      "https://api.crossref.org/works/10.1000/xyz123" ∧
    crossrefLookupUrl "http://dx.doi.org/10.1000/xyz123" =
      "https://api.crossref.org/works/10.1000/xyz123" ∧
    crossrefLookupUrl "10.1000/xyz123" =
      "https://api.crossref.org/works/10.1000/xyz123" := by
  exact ⟨by decide, by decide, by decide, by decide, by decide, by decide⟩

/-- C7: no transport fault escapes a single identifier check: an unexpected
exception at the external call becomes a non-valid outcome whose message
embeds the fault text truncated to 50 characters, timeouts become fixed
non-valid outcomes, and the orchestrator still produces one result per record
under any transport. -/
theorem fault_containment (t : Transport) (d a e : String) (rng : Rng)
    (refs : List Reference) :
    ((pyTake e 50).length ≤ 50) ∧
    (¬ d = "" → ¬ crossrefNormalize d = "" →
      (∀ u, t ⟨Method.get, crossrefLookupUrl d, u⟩ = .exc e) →
      (verify_doi_crossref t d rng).1 =
        (false, "Crossref error: " ++ pyTake e 50, CrossrefMsg.empty)) ∧
    (¬ d = "" → ¬ crossrefNormalize d = "" →
      (∀ u, t ⟨Method.get, crossrefLookupUrl d, u⟩ = .timeout) →
      (verify_doi_crossref t d rng).1 = (false, "Crossref timeout", CrossrefMsg.empty)) ∧
    (¬ d = "" → (∀ u, t ⟨Method.head, doiUrl1 d, u⟩ = .exc e) →
      (verify_doi t d rng).1 = (false, "Error: " ++ pyTake e 50, 0)) ∧
    (¬ d = "" → (∀ u, t ⟨Method.head, doiUrl1 d, u⟩ = .timeout) →
      (verify_doi t d rng).1 = (false, "Timeout", 0)) ∧
    (¬ a = "" → (∀ u, t ⟨Method.head, arxivUrl a, u⟩ = .exc e) →
      (verify_arxiv t a rng).1 = (false, "Error: " ++ pyTake e 50)) ∧
    ((verify_references t refs rng).1.length = refs.length) := by
  refine ⟨?_, fun hd hn he => ?_, fun hd hn ht => ?_, fun hd he => ?_, fun hd ht => ?_,
    fun ha he => ?_, verify_references_length t refs rng⟩
  · show (e.data.take 50).length ≤ 50
    simp
  · have hd' : ¬ (d == "") = true := by simpa using hd
    have hn' : ¬ (crossrefNormalize d == "") = true := by simpa using hn
    rw [show (verify_doi_crossref t d rng) =
      ((false, "Crossref error: " ++ pyTake e 50, CrossrefMsg.empty),
        [⟨Method.get, crossrefLookupUrl d, (get_random_user_agent rng).1⟩],
        (get_random_user_agent rng).2) from by
      simp only [verify_doi_crossref, hd', hn', Bool.false_eq_true, if_false,
        he (get_random_user_agent rng).1]]
  · have hd' : ¬ (d == "") = true := by simpa using hd
    have hn' : ¬ (crossrefNormalize d == "") = true := by simpa using hn
    rw [show (verify_doi_crossref t d rng) =
      ((false, "Crossref timeout", CrossrefMsg.empty),
        [⟨Method.get, crossrefLookupUrl d, (get_random_user_agent rng).1⟩],
        (get_random_user_agent rng).2) from by
      simp only [verify_doi_crossref, hd', hn', Bool.false_eq_true, if_false,
        ht (get_random_user_agent rng).1]]
  · have hd' : ¬ (d == "") = true := by simpa using hd
    simp [verify_doi, hd', tryResolveUrl, he (get_random_user_agent rng).1]
  · have hd' : ¬ (d == "") = true := by simpa using hd
    simp [verify_doi, hd', tryResolveUrl, ht (get_random_user_agent rng).1]
  · have ha' : ¬ (a == "") = true := by simpa using ha
    simp [verify_arxiv, ha', he (get_random_user_agent rng).1, HttpResult.faultText]

/-- C7 witness: a transport that always throws leaves every check with a
non-valid truncated-message outcome and the batch intact. -/
theorem fault_containment_witness :
    (verify_doi_crossref tExc "10.1/x" []).1 =
      (false, "Crossref error: boom", CrossrefMsg.empty) ∧
    (verify_doi tExc "10.1/x" []).1 = (false, "Error: boom", 0) ∧
    (verify_arxiv tExc "1234.5678" []).1 = (false, "Error: boom") ∧
    (verify_references tExc [refD, refN] []).1.length = 2 := by
  have h := fault_containment tExc "10.1/x" "1234.5678" "boom" [] [refD, refN]
  refine ⟨?_, ?_, ?_, h.2.2.2.2.2.2⟩
  · have := h.2.1 (by decide) (by decide) (fun u => rfl)
    simpa using this
  · have := h.2.2.2.1 (by decide) (fun u => rfl)
    simpa using this
  · have := h.2.2.2.2.2.1 (by decide) (fun u => rfl)
    simpa using this

/-- C10: `generate_report` divides the per-status counts by the total number
of results, so the empty results list raises `ZeroDivisionError` instead of
producing a report — and that is the only input on which it does. -/
theorem empty_report_division :
    generate_report ([] : List VerResult) = Except.error "ZeroDivisionError" ∧
    ∀ results : List VerResult,
      generate_report results = Except.error "ZeroDivisionError" ↔ results = [] := by
  refine ⟨rfl, fun results => ?_⟩
  cases results <;> simp [generate_report]

/-- C10 witness: a singleton results list does produce a report. -/
theorem empty_report_division_witness :
    ¬ generate_report [dfltR] = Except.error "ZeroDivisionError" :=
  fun hc => absurd ((empty_report_division.2 [dfltR]).mp hc) (by decide)

end BibCheck
